import Mathlib

/-
Verification development for the Lucidic instrumentation client.

The core under study is the Session / Step / Event lifecycle state machine
of src/lucidicai/__init__.py, the LangChain callback-correlation adapter of
src/lucidicai/providers/langchain.py, and the prompt variable-substitution
logic of get_prompt.  The repository ships only the facade module and the
LangChain adapter; the internals of Client, Session, Step and Event live in
modules that are not part of the sources, so those internals are modelled
from the specification, as marked on each such definition.  Python strings
are modelled as lists of characters, dictionaries as association lists with
insertion-order semantics, and costs as optional natural cost units.
-/

namespace Lucidic

/-! ## List and dictionary helpers (Python list / dict semantics) -/

/-- Element lookup at a nonnegative position, as Python list indexing. -/
def listGet {α : Type} : List α → Nat → Option α
  | [], _ => none
  | x :: _, 0 => some x
  | _ :: rest, n + 1 => listGet rest n

/-- In-place element replacement at a position, as Python item assignment. -/
def listSet {α : Type} : List α → Nat → α → List α
  | [], _, _ => []
  | _ :: rest, 0, v => v :: rest
  | x :: rest, n + 1, v => x :: listSet rest n v

/-- Dictionary lookup, as Python dict.get. -/
def dictGet {α : Type} : List (String × α) → String → Option α
  | [], _ => none
  | (k, v) :: rest, key => if k = key then some v else dictGet rest key

/-- Dictionary write, as Python item assignment: replace the entry if the
key is present, otherwise append it. -/
def dictSet {α : Type} : List (String × α) → String → α → List (String × α)
  | [], key, v => [(key, v)]
  | (k, w) :: rest, key, v =>
    if k = key then (k, v) :: rest else (k, w) :: dictSet rest key v

/-- Dictionary deletion, as the Python del statement. -/
def dictDel {α : Type} : List (String × α) → String → List (String × α)
  | [], _ => []
  | (k, w) :: rest, key => if k = key then rest else (k, w) :: dictDel rest key

/-- Membership test, as the Python in operator on a dict. -/
def dictHas {α : Type} (d : List (String × α)) (key : String) : Bool :=
  (dictGet d key).isSome

/-! ## Python string primitives for prompt resolution -/

/-- Python strings for the prompt-resolution functions. -/
abbrev PyStr := List Char

/-- Whether the pattern matches at the head of the text. -/
def headMatches : PyStr → PyStr → Bool
  | [], _ => true
  | _ :: _, [] => false
  | p :: ps, c :: cs => p = c && headMatches ps cs

/-- Index of the first occurrence of a substring, or -1, as Python str.find. -/
def strFind (pat : PyStr) (s : PyStr) : Int :=
  match s with
  | [] => if pat.length = 0 then 0 else -1
  | _ :: rest =>
    if headMatches pat s then 0
    else
      let r := strFind pat rest
      if r = -1 then -1 else r + 1

/-- Recursion core of replaceAll.  The fuel argument starts at the length
of the text and never runs out, because every step consumes at least one
character; it only makes the recursion structural. -/
def replaceAllGo (pat rep : PyStr) : Nat → PyStr → PyStr
  | _, [] => []
  | 0, s => s
  | fuel + 1, c :: rest =>
    if pat.length > 0 && headMatches pat (c :: rest) then
      rep ++ replaceAllGo pat rep fuel (List.drop (pat.length - 1) rest)
    else
      c :: replaceAllGo pat rep fuel rest

/-- Replace every non-overlapping occurrence of a nonempty pattern, left to
right, as Python str.replace. -/
def replaceAll (pat rep s : PyStr) : PyStr :=
  replaceAllGo pat rep s.length s

deriving instance DecidableEq for Except

/-- Keyword-argument semantics of the partial updates: a provided value
overrides, an absent one keeps the old value. -/
def orElseOpt {α : Type} (u old : Option α) : Option α :=
  match u with
  | some v => some v
  | none => old

theorem orElseOpt_some {α : Type} (v : α) (old : Option α) :
    orElseOpt (some v) old = some v := rfl

theorem orElseOpt_none {α : Type} (old : Option α) :
    orElseOpt none old = old := rfl

theorem orElseOpt_none_right {α : Type} (u : Option α) :
    orElseOpt u none = u := by
  cases u <;> rfl

/-! ## Error kinds (src/lucidicai/errors.py is referenced from the facade) -/

/-- Exception kinds raised by the facade, named after the classes imported in
src/lucidicai/__init__.py. -/
inductive LErr where
  | notInitialized
  | invalidOperation (msg : String)
  | promptErr (msg : String)
  | apiKeyErr (msg : String)
deriving DecidableEq, Repr

/-- Whether an exception is an InvalidOperationError. -/
def LErr.isInvalidOp : LErr → Bool
  | .invalidOperation _ => true
  | _ => false

/-! ## Data model -/

/-- Modelled from the spec: an Event record (event.py is not among the
sources).  Attributes per section 3 of the design: description (text and/or
image payload), result, cost delta, model identifier, finished flag, success
flag.  The LangChain adapter passes a list of text prompts as the
description, so the description is a list of strings; cost is in abstract
cost units. -/
structure Event where
  description : List String
  screenshots : List String
  result : Option String
  cost_added : Option Nat
  model : Option String
  is_finished : Bool
  is_successful : Option Bool
deriving DecidableEq, Repr

/-- Modelled from the spec: partial update of an Event; provided fields are
set, absent fields are left unchanged (a None-valued keyword is treated as
not provided). -/
def Event.update_event (e : Event) (is_finished_u : Option Bool)
    (is_successful_u : Option Bool) (cost_added_u : Option Nat)
    (model_u : Option String) (result_u : Option String)
    (description_u : Option (List String)) : Event :=
  { e with
    is_finished := is_finished_u.getD e.is_finished
    is_successful := orElseOpt is_successful_u e.is_successful
    cost_added := orElseOpt cost_added_u e.cost_added
    model := orElseOpt model_u e.model
    result := orElseOpt result_u e.result
    description := description_u.getD e.description }

/-- Modelled from the spec: a Step owning an ordered, append-only Event
history (step.py is not among the sources). -/
structure Step where
  state : Option String
  action : Option String
  goal : Option String
  is_finished : Bool
  event_history : List Event
deriving DecidableEq, Repr

/-- Modelled from the spec: partial update of the mutable Step fields;
absent fields are left unchanged. -/
def Step.update_step (st : Step) (state_u action_u goal_u : Option String)
    (is_finished_u : Option Bool) : Step :=
  { st with
    state := orElseOpt state_u st.state
    action := orElseOpt action_u st.action
    goal := orElseOpt goal_u st.goal
    is_finished := is_finished_u.getD st.is_finished }

/-- Modelled from the spec: a fresh Event as created by
Step.create_event(description=..., screenshots=...): unfinished, with the
success flag, result, cost and model not yet set. -/
def mkEvent (description screenshots : List String) : Event :=
  ⟨description, screenshots, none, none, none, false, none⟩

/-- Modelled from the spec: a Session owning an append-only Step history
(session.py is not among the sources).  The active Step, when one exists,
is the last entry of the history while it is unfinished. -/
structure Session where
  is_finished : Bool
  task : Option String
  step_history : List Step
deriving DecidableEq, Repr

/-- Modelled from the spec: the active Step of a Session is its most recent
Step while that Step is unfinished; a Session has at most one active Step. -/
def Session.activeStep (s : Session) : Option Step :=
  match listGet s.step_history (s.step_history.length - 1) with
  | none => none
  | some st => if st.is_finished then none else some st

/-- Event coordinates: position of the owning Step in the Step history and
position of the Event in that Step's Event history.  Both histories are
append-only, so coordinates are stable names for the Python object
references the adapter stores. -/
abbrev EventRef := Nat × Nat

/-- Look up the Event at the given coordinates. -/
def Session.getEventAt (s : Session) (si ei : Nat) : Option Event :=
  match listGet s.step_history si with
  | none => none
  | some st => listGet st.event_history ei

/-- Replace the Event at the given coordinates. -/
def Session.setEventAt (s : Session) (si ei : Nat) (ev : Event) : Session :=
  match listGet s.step_history si with
  | none => s
  | some st =>
    let st2 : Step := { st with event_history := listSet st.event_history ei ev }
    { s with step_history := listSet s.step_history si st2 }

/-- Modelled from the spec: Step.create_event appends a fresh Event to the
active Step and returns its coordinates; it is only reachable through the
active Step, which is unfinished, so creation succeeds. -/
def Session.createEventInActive (s : Session)
    (description screenshots : List String) :
    Option (Session × Nat × Nat) :=
  match s.activeStep with
  | none => none
  | some st =>
    let si := s.step_history.length - 1
    let ei := st.event_history.length
    let st2 := { st with
      event_history := st.event_history ++ [mkEvent description screenshots] }
    some ({ s with step_history := listSet s.step_history si st2 }, si, ei)

/-- Modelled from the spec: the state held by the Client singleton that the
facade functions reach through Client() (client.py is not among the
sources). -/
structure ClientState where
  session : Option Session
deriving DecidableEq, Repr

/-- The process-wide facade.  client = none models a process in which the
Client singleton was never initialized; the no-argument Client() call then
raises LucidicNotInitializedError, as witnessed by the try/except around
Client() in init in src/lucidicai/__init__.py. -/
structure Facade where
  client : Option ClientState
deriving DecidableEq, Repr

/-! ## Facade operations (src/lucidicai/__init__.py)

Each operation returns the facade after the call together with the
exception it raised, if any.  Console logging carries no state and is not
modelled.  The Session / Step / Event method bodies reached at the end of
each operation are the spec-modelled updates above; everything else follows
the source line by line. -/

/-- Replace the live Session of an initialized client. -/
def Facade.withSession (_f : Facade) (s : Option Session) : Facade :=
  ⟨some ⟨s⟩⟩

/-- update_session (src/lucidicai/__init__.py lines 109-130): Client()
raises if never initialized; with no Session the call warns and returns;
otherwise the Session fields are partially updated. -/
def update_session (f : Facade) (task : Option String) :
    Facade × Option LErr :=
  match f.client with
  | none => (f, some .notInitialized)
  | some c =>
    match c.session with
    | none => (f, none)
    | some s =>
      (f.withSession (some { s with task := match task with
        | some t => some t
        | none => s.task }), none)

/-- end_session (lines 133-153): with no Session the call warns and
returns; otherwise the Session is finished and detached from the client by
clear_session. -/
def end_session (f : Facade) : Facade × Option LErr :=
  match f.client with
  | none => (f, some .notInitialized)
  | some c =>
    match c.session with
    | none => (f, none)
    | some _ => (f.withSession none, none)

/-- update_step (lines 234-261): with no Session the call warns and
returns; with a Session but no active Step it raises
InvalidOperationError; otherwise the active (most recent) Step is
partially updated. -/
def update_step (f : Facade) (state_u action_u goal_u : Option String) :
    Facade × Option LErr :=
  match f.client with
  | none => (f, some .notInitialized)
  | some c =>
    match c.session with
    | none => (f, none)
    | some s =>
      match s.activeStep with
      | none => (f, some (.invalidOperation "No active step to update"))
      | some st =>
        let st2 := st.update_step state_u action_u goal_u none
        (f.withSession (some { s with
          step_history := listSet s.step_history (s.step_history.length - 1) st2 }),
         none)

/-- end_step (lines 299-326): as update_step, but the update additionally
sets the finished flag of the active Step. -/
def end_step (f : Facade) (state_u action_u goal_u : Option String) :
    Facade × Option LErr :=
  match f.client with
  | none => (f, some .notInitialized)
  | some c =>
    match c.session with
    | none => (f, none)
    | some s =>
      match s.activeStep with
      | none => (f, some (.invalidOperation "No active step to end"))
      | some st =>
        let st2 := st.update_step state_u action_u goal_u (some true)
        (f.withSession (some { s with
          step_history := listSet s.step_history (s.step_history.length - 1) st2 }),
         none)

/-- update_previous_step (lines 263-297): with no Session the call warns
and returns; a nonnegative index raises InvalidOperationError, as does an
index below minus the history length; otherwise the Step at the negative
offset (-1 = most recent) is partially updated.  A Step object is always
truthy, so the empty-slot warning branch of the source is unreachable. -/
def update_previous_step (f : Facade) (index : Int)
    (state_u action_u goal_u : Option String) : Facade × Option LErr :=
  match f.client with
  | none => (f, some .notInitialized)
  | some c =>
    match c.session with
    | none => (f, none)
    | some s =>
      if index ≥ 0 then
        (f, some (.invalidOperation
          "Index must be negative, -1 is the latest step, -2 is the second latest, etc."))
      else if index < -(s.step_history.length : Int) then
        (f, some (.invalidOperation "Index out of bounds"))
      else
        let pos := ((s.step_history.length : Int) + index).toNat
        match listGet s.step_history pos with
        | none => (f, none)
        | some st =>
          let st2 := st.update_step state_u action_u goal_u none
          (f.withSession (some { s with
            step_history := listSet s.step_history pos st2 }), none)

/-- update_event (lines 356-380): with no Session the call warns and
returns; with no active Step or with an empty Event history it raises
InvalidOperationError; otherwise the most recent Event of the active Step
is partially updated. -/
def update_event (f : Facade) (description_u : Option (List String))
    (result_u : Option String) (cost_u : Option Nat)
    (model_u : Option String) : Facade × Option LErr :=
  match f.client with
  | none => (f, some .notInitialized)
  | some c =>
    match c.session with
    | none => (f, none)
    | some s =>
      match s.activeStep with
      | none => (f, some (.invalidOperation "No active step to update event in"))
      | some st =>
        match listGet st.event_history (st.event_history.length - 1) with
        | none => (f, some (.invalidOperation "No events exist in the current step"))
        | some ev =>
          let ev2 := ev.update_event none none cost_u model_u result_u description_u
          let st2 := { st with
            event_history := listSet st.event_history (st.event_history.length - 1) ev2 }
          (f.withSession (some { s with
            step_history := listSet s.step_history (s.step_history.length - 1) st2 }),
           none)

/-- update_previous_event (lines 383-413): preconditions as update_event,
then the index contract of update_previous_step, applied to the Event
history of the active Step. -/
def update_previous_event (f : Facade) (index : Int)
    (description_u : Option (List String)) (result_u : Option String)
    (cost_u : Option Nat) (model_u : Option String) : Facade × Option LErr :=
  match f.client with
  | none => (f, some .notInitialized)
  | some c =>
    match c.session with
    | none => (f, none)
    | some s =>
      match s.activeStep with
      | none =>
        (f, some (.invalidOperation "No active step to update previous event in"))
      | some st =>
        if st.event_history.length = 0 then
          (f, some (.invalidOperation "No events exist in the current step"))
        else if index ≥ 0 then
          (f, some (.invalidOperation
            "Index must be negative, -1 is the latest event, -2 is the second latest, etc."))
        else if index < -(st.event_history.length : Int) then
          (f, some (.invalidOperation "Index out of bounds"))
        else
          let pos := ((st.event_history.length : Int) + index).toNat
          match listGet st.event_history pos with
          | none => (f, none)
          | some ev =>
            let ev2 := ev.update_event none none cost_u model_u result_u description_u
            let st2 := { st with event_history := listSet st.event_history pos ev2 }
            (f.withSession (some { s with
              step_history := listSet s.step_history (s.step_history.length - 1) st2 }),
             none)

/-- end_event (lines 416-443): with no Session the call warns and returns;
with no active Step or no Event it raises InvalidOperationError; ending an
already finished Event raises InvalidOperationError; otherwise the most
recent Event is updated with the finished flag set.  The source does not
pass a success flag here. -/
def end_event (f : Facade) (description_u : Option (List String))
    (result_u : Option String) (cost_u : Option Nat)
    (model_u : Option String) : Facade × Option LErr :=
  match f.client with
  | none => (f, some .notInitialized)
  | some c =>
    match c.session with
    | none => (f, none)
    | some s =>
      match s.activeStep with
      | none => (f, some (.invalidOperation "No active step to end event in"))
      | some st =>
        match listGet st.event_history (st.event_history.length - 1) with
        | none => (f, some (.invalidOperation "No events exist in the current step"))
        | some ev =>
          if ev.is_finished then
            (f, some (.invalidOperation "Latest event is already finished"))
          else
            let ev2 := ev.update_event (some true) none cost_u model_u result_u description_u
            let st2 := { st with
              event_history := listSet st.event_history (st.event_history.length - 1) ev2 }
            (f.withSession (some { s with
              step_history := listSet s.step_history (s.step_history.length - 1) st2 }),
             none)

/-- Modelled from the spec: a fresh Session as created by
Client.init_session: unfinished, with an empty Step history. -/
def mkSession (task : Option String) : Session :=
  ⟨false, task, []⟩

/-- init (lines 47-106): missing credentials raise
APIKeyVerificationError; an initialized client with a live Session raises
InvalidOperationError (the exception escapes the try block, whose handler
only catches LucidicNotInitializedError), leaving the facade unchanged;
otherwise a client is created if needed and a fresh Session is
installed. -/
def init (f : Facade) (hasApiKey hasAgentId : Bool) (task : Option String) :
    Facade × Option LErr :=
  if !hasApiKey then
    (f, some (.apiKeyErr "Make sure to either pass your API key into lai.init() or set the LUCIDIC_API_KEY environment variable."))
  else if !hasAgentId then
    (f, some (.apiKeyErr "Lucidic agent ID not specified."))
  else
    match f.client with
    | some c =>
      match c.session with
      | some _ =>
        (f, some (.invalidOperation
          "[Lucidic] Session already in progress. Please call lai.reset() first."))
      | none => (f.withSession (some (mkSession task)), none)
    | none => (⟨some ⟨some (mkSession task)⟩⟩, none)

/-! ## Prompt resolution (get_prompt, src/lucidicai/__init__.py lines 446-477) -/

/-- The literal token of a substitution variable, two opening braces, the
key, two closing braces, as built by the source. -/
def braceToken (key : PyStr) : PyStr :=
  "\x7b\x7b".data ++ key ++ "\x7d\x7d".data

/-- The substitution loop of get_prompt: for each supplied key in order,
find its literal token in the current prompt text; if absent raise
PromptError, otherwise replace every occurrence with the value. -/
def substLoop : List (PyStr × PyStr) → PyStr → Except LErr PyStr
  | [], p => .ok p
  | (key, val) :: rest, p =>
    if strFind (braceToken key) p = -1 then
      .error (.promptErr "Supplied variable not found in prompt")
    else
      substLoop rest (replaceAll (braceToken key) val p)

/-- The unresolved-token check of get_prompt line 475: both brace pairs
occur and the opening pair occurs first.  It only triggers a console
warning. -/
def unresolvedWarn (p : PyStr) : Bool :=
  strFind "\x7b\x7b".data p ≠ -1 && strFind "\x7d\x7d".data p ≠ -1 &&
    strFind "\x7b\x7b".data p < strFind "\x7d\x7d".data p

/-- Outcome of a get_prompt call: the returned text when the call returns,
the exception when it raises, whether the prompt was fetched from the
client (backend or cache), and whether the unresolved-token warning was
printed. -/
structure PromptOutcome where
  ret : Option PyStr
  raised : Option LErr
  fetched : Bool
  warned : Bool
deriving DecidableEq, Repr

/-- get_prompt: Client() raises if never initialized; with no Session the
call warns and returns the empty string without fetching; otherwise the
text fetched from the client (passed here as fetchedText, the cache and
backend being external collaborators) goes through the substitution loop,
and the unresolved-token check can only warn, never raise. -/
def get_prompt (f : Facade) (fetchedText : PyStr)
    (vars : List (PyStr × PyStr)) : PromptOutcome :=
  match f.client with
  | none => ⟨none, some .notInitialized, false, false⟩
  | some c =>
    match c.session with
    | none => ⟨some [], none, false, false⟩
    | some _ =>
      match substLoop vars fetchedText with
      | .error e => ⟨none, some e, true, false⟩
      | .ok p => ⟨some p, none, true, unresolvedWarn p⟩

/-! ## LangChain callback adapter (src/lucidicai/providers/langchain.py)

The handler keeps two Python dictionaries: run_to_model maps a run id to
the model name captured at start time, and run_to_event maps a run id to
the Event the start callback created.  Stored Event object references are
modelled as coordinates into the append-only histories.  The payload
parsing of each callback (prompt lists, message blocks) is passed in
already split into text and image lists; the model name extracted by
_get_model_name is passed in as a string. -/

/-- The LucidicLangchainHandler correlation state. -/
structure Handler where
  run_to_model : List (String × String)
  run_to_event : List (String × EventRef)
deriving DecidableEq, Repr

/-- Outcome of one callback dispatch: handler and facade after the call,
and the exception that escaped to the host framework, if any. -/
structure CbOutcome where
  handler : Handler
  facade : Facade
  raised : Option LErr
deriving DecidableEq, Repr

/-- The message attached to the first generation of an LLMResult: its
usage_metadata (fed to the pricing lookup) and its pretty_repr text. -/
structure GenMessage where
  usage_metadata : Option Nat
  pretty : String
deriving DecidableEq, Repr

/-- on_llm_start (langchain.py lines 39-76): record the model for the run,
then require an active Session and Step through Client(); if the check
fails, log and return without creating an Event; otherwise create an Event
in the active Step and record it for the run.  A never-initialized client
makes the Client() call itself raise. -/
def onLlmStart (h : Handler) (f : Facade) (run model : String)
    (textPrompts imagePrompts : List String) : CbOutcome :=
  let h1 : Handler := { h with run_to_model := dictSet h.run_to_model run model }
  match f.client with
  | none => ⟨h1, f, some .notInitialized⟩
  | some c =>
    match c.session with
    | none => ⟨h1, f, none⟩
    | some s =>
      match s.createEventInActive textPrompts imagePrompts with
      | none => ⟨h1, f, none⟩
      | some (s2, si, ei) =>
        ⟨{ h1 with run_to_event := dictSet h1.run_to_event run (si, ei) },
         f.withSession (some s2), none⟩

/-- on_chat_model_start (lines 78-124): identical correlation logic to
on_llm_start after its own payload parsing. -/
def onChatModelStart (h : Handler) (f : Facade) (run model : String)
    (textBlocks imageBlocks : List String) : CbOutcome :=
  let h1 : Handler := { h with run_to_model := dictSet h.run_to_model run model }
  match f.client with
  | none => ⟨h1, f, some .notInitialized⟩
  | some c =>
    match c.session with
    | none => ⟨h1, f, none⟩
    | some s =>
      match s.createEventInActive textBlocks imageBlocks with
      | none => ⟨h1, f, none⟩
      | some (s2, si, ei) =>
        ⟨{ h1 with run_to_event := dictSet h1.run_to_event run (si, ei) },
         f.withSession (some s2), none⟩

/-- on_llm_end (lines 138-191).  The model is looked up with default
"unknown"; the cost is computed by the external pricing collaborator
calcCost when the response carries a generation message.  After the
Session / Step check, inside a catch-all try block: a run with no entry is
logged; an entry whose Event is already finished is only deleted; an
unfinished Event with no bound generation message hits an unbound local in
the source, the exception is caught and the entry survives; otherwise the
Event is finished with success, cost, model and result, and the entry is
deleted.  Finally the run_to_model entry is deleted when present.  The
dangling-coordinate branch mirrors the caught-exception path and is
unreachable for references the handler itself stored. -/
def onLlmEnd (calcCost : String → Option Nat → Option Nat) (h : Handler)
    (f : Facade) (run : String) (response : Option GenMessage) : CbOutcome :=
  let model := (dictGet h.run_to_model run).getD "unknown"
  match f.client with
  | none => ⟨h, f, some .notInitialized⟩
  | some c =>
    match c.session with
    | none => ⟨h, f, none⟩
    | some s =>
      match s.activeStep with
      | none => ⟨h, f, none⟩
      | some _ =>
        let tryOut : Handler × Session :=
          match dictGet h.run_to_event run with
          | none => (h, s)
          | some (si, ei) =>
            match s.getEventAt si ei with
            | none => (h, s)
            | some ev =>
              if ev.is_finished then
                ({ h with run_to_event := dictDel h.run_to_event run }, s)
              else
                match response with
                | none => (h, s)
                | some m =>
                  let cost := calcCost model m.usage_metadata
                  let ev2 := ev.update_event (some true) (some true) cost
                    (some model) (some m.pretty) none
                  ({ h with run_to_event := dictDel h.run_to_event run },
                   s.setEventAt si ei ev2)
        let h2 := tryOut.1
        let h3 := if dictHas h2.run_to_model run then
            { h2 with run_to_model := dictDel h2.run_to_model run }
          else h2
        ⟨h3, f.withSession (some tryOut.2), none⟩

/-- on_llm_error (lines 193-225).  After the Session / Step check, inside a
catch-all try block: a run with no entry is logged; an entry whose Event is
unfinished has the Event updated with only the finished flag and the model
name, no success flag, cost or result; in either case the entry is deleted.
Finally the run_to_model entry is deleted when present. -/
def onLlmError (h : Handler) (f : Facade) (run : String) : CbOutcome :=
  let model := (dictGet h.run_to_model run).getD "unknown"
  match f.client with
  | none => ⟨h, f, some .notInitialized⟩
  | some c =>
    match c.session with
    | none => ⟨h, f, none⟩
    | some s =>
      match s.activeStep with
      | none => ⟨h, f, none⟩
      | some _ =>
        let tryOut : Handler × Session :=
          match dictGet h.run_to_event run with
          | none => (h, s)
          | some (si, ei) =>
            match s.getEventAt si ei with
            | none => (h, s)
            | some ev =>
              if ev.is_finished then
                ({ h with run_to_event := dictDel h.run_to_event run }, s)
              else
                let ev2 := ev.update_event (some true) none none (some model) none none
                ({ h with run_to_event := dictDel h.run_to_event run },
                 s.setEventAt si ei ev2)
        let h2 := tryOut.1
        let h3 := if dictHas h2.run_to_model run then
            { h2 with run_to_model := dictDel h2.run_to_model run }
          else h2
        ⟨h3, f.withSession (some tryOut.2), none⟩

/-! ## Handler attachment (attach_to_llms, langchain.py lines 558-585) -/

/-- A registered callback in a host callbacks collection: either some
LucidicLangchainHandler instance (the isinstance check of the source treats
them all alike) or any other callback. -/
inductive CB where
  | lucidic (id : Nat)
  | other (id : Nat)
deriving DecidableEq, Repr

/-- The isinstance(callback, LucidicLangchainHandler) test. -/
def CB.isLucidic : CB → Bool
  | .lucidic _ => true
  | .other _ => false

/-- One attachment step on an object exposing a callbacks attribute, which
may be None: read the collection (None becomes the empty list), and append
the handler only when no LucidicLangchainHandler is already present. -/
def attachList (o : Option (List CB)) : Option (List CB) :=
  let cbs := o.getD []
  if cbs.any CB.isLucidic then o else some (cbs ++ [CB.lucidic 0])

/-- A host object for attach_to_llms: its own callbacks attribute when it
has one (which may hold None), and its named attributes, each either
without a callbacks attribute or with one (which may hold None). -/
structure Host where
  selfCallbacks : Option (Option (List CB))
  attrs : List (String × Option (Option (List CB)))
deriving DecidableEq, Repr

/-- attach_to_llms: attach to the host itself when it has a callbacks
attribute, then walk its attributes, skipping names that start with an
underscore, and attach to every attribute exposing a callbacks
attribute. -/
def attach_to_llms (host : Host) : Host :=
  ⟨host.selfCallbacks.map attachList,
   host.attrs.map (fun p =>
     if p.1.startsWith "_" then p else (p.1, p.2.map attachList))⟩

/-- Number of LucidicLangchainHandler instances in a collection. -/
def countLucidic (l : List CB) : Nat :=
  (l.filter CB.isLucidic).length

/-! ## Helper lemmas -/

theorem dictGet_set_self {α : Type} (d : List (String × α)) (k : String) (v : α) :
    dictGet (dictSet d k v) k = some v := by
  induction d with
  | nil => simp [dictSet, dictGet]
  | cons hd tl ih =>
    obtain ⟨k0, v0⟩ := hd
    by_cases hk : k0 = k
    · simp [dictSet, dictGet, hk]
    · simp [dictSet, dictGet, hk, ih]

theorem dictDel_set_self {α : Type} (d : List (String × α)) (k : String) (v : α)
    (h : dictGet d k = none) : dictDel (dictSet d k v) k = d := by
  induction d with
  | nil => simp [dictSet, dictDel]
  | cons hd tl ih =>
    obtain ⟨k0, v0⟩ := hd
    by_cases hk : k0 = k
    · simp [dictGet, hk] at h
    · simp [dictGet, hk] at h
      simp [dictSet, dictDel, hk, ih h]

theorem listGet_concat {α : Type} (l : List α) (a : α) :
    listGet (l ++ [a]) l.length = some a := by
  induction l with
  | nil => simp [listGet]
  | cons x tl ih => simpa [listGet] using ih

theorem listSet_concat {α : Type} (l : List α) (a v : α) :
    listSet (l ++ [a]) l.length v = l ++ [v] := by
  induction l with
  | nil => simp [listSet]
  | cons x tl ih => simpa [listSet] using ih

theorem activeStep_concat (fin : Bool) (task : Option String)
    (steps : List Step) (st : Step) (hf : st.is_finished = false) :
    Session.activeStep ⟨fin, task, steps ++ [st]⟩ = some st := by
  simp [Session.activeStep, listGet_concat, hf]

theorem activeStep_eq (s : Session) (steps : List Step) (st : Step)
    (hh : s.step_history = steps ++ [st]) (hf : st.is_finished = false) :
    s.activeStep = some st := by
  obtain ⟨fin, task, hist⟩ := s
  cases hh
  exact activeStep_concat fin task steps st hf

/-! ## Claims -/

/-- Claim C6: calling init while a Session is already active in the client
facade fails with InvalidOperationError and leaves the facade unchanged, so
no second concurrent Session is ever created. -/
theorem C6_init_rejects_live_session (f : Facade) (c : ClientState) (s : Session)
    (task : Option String) (hc : f.client = some c) (hs : c.session = some s) :
    init f true true task =
      (f, some (.invalidOperation
        "[Lucidic] Session already in progress. Please call lai.reset() first.")) := by
  simp [init, hc, hs]

theorem C6_witness :
    init ⟨some ⟨some (mkSession none)⟩⟩ true true none =
      (⟨some ⟨some (mkSession none)⟩⟩, some (LErr.invalidOperation
        "[Lucidic] Session already in progress. Please call lai.reset() first.")) :=
  C6_init_rejects_live_session _ _ _ none rfl rfl

/-- Claim C7: ending an already finished Event via end_event is rejected
with InvalidOperationError, while end_session after the Session has been
ended is a warning no-op: the first end_session detaches the Session, and
the second call returns without changing state and without raising. -/
theorem C7_end_idempotence (f : Facade) (c : ClientState)
    (d : Option (List String)) (r : Option String) (cu : Option Nat)
    (m : Option String) (hc : f.client = some c) :
    (∀ s steps st evs e, c.session = some s → s.step_history = steps ++ [st] →
      st.is_finished = false → st.event_history = evs ++ [e] → e.is_finished = true →
      end_event f d r cu m =
        (f, some (.invalidOperation "Latest event is already finished"))) ∧
    (∀ s, c.session = some s →
      end_session f = (f.withSession none, none) ∧
      end_session (f.withSession none) = (f.withSession none, none)) := by
  constructor
  · intro s steps st evs e hs hh hf hev hfin
    simp [end_event, hc, hs, activeStep_eq s steps st hh hf, hev, listGet_concat, hfin]
  · intro s hs
    constructor
    · simp [end_session, hc, hs]
    · simp [end_session, Facade.withSession]

theorem C7_witness :
    end_event ⟨some ⟨some ⟨false, none,
        [⟨none, none, none, false, [⟨[], [], none, none, none, true, none⟩]⟩]⟩⟩⟩
        none none none none =
      (⟨some ⟨some ⟨false, none,
        [⟨none, none, none, false, [⟨[], [], none, none, none, true, none⟩]⟩]⟩⟩⟩,
       some (LErr.invalidOperation "Latest event is already finished")) ∧
    end_session ⟨some ⟨some (mkSession none)⟩⟩ = (⟨some ⟨none⟩⟩, none) :=
  ⟨(C7_end_idempotence _ _ none none none none rfl).1 _ [] _ [] _ rfl rfl rfl rfl rfl,
   ((C7_end_idempotence _ _ none none none none rfl).2 _ rfl).1⟩

/-- Claim C10 (implicit): get_prompt called when no Session is active
returns the empty string after its warning, without fetching the prompt and
without performing any substitution, so no PromptError can be raised. -/
theorem C10_get_prompt_no_session (f : Facade) (c : ClientState)
    (fetched : PyStr) (vars : List (PyStr × PyStr))
    (hc : f.client = some c) (hs : c.session = none) :
    get_prompt f fetched vars = ⟨some [], none, false, false⟩ := by
  simp [get_prompt, hc, hs]

theorem C10_witness :
    get_prompt ⟨some ⟨none⟩⟩ "Hi".data [("name".data, "Ann".data)] =
      ⟨some [], none, false, false⟩ :=
  C10_get_prompt_no_session _ _ _ _ rfl rfl

/-- Claim C3, counterexample: with an active Session whose Step history is
empty, so that no Step is active, update_step raises InvalidOperationError
instead of warning and becoming a no-op. -/
theorem C3_counterexample :
    (update_step ⟨some ⟨some (mkSession none)⟩⟩ (some "s") none none).2 =
      some (LErr.invalidOperation "No active step to update") := by
  rfl

/-- Claim C3 as amended: for an initialized client, update_session,
end_session, update_step, end_step, update_event and end_event all warn and
no-op without raising when no Session is active; but when a Session is
active and the required Step is missing, the step and event operations
raise InvalidOperationError, and when the active Step has no Events, the
event operations raise InvalidOperationError. -/
theorem C3_inactive_target_policy (f : Facade) (c : ClientState)
    (t a b g : Option String) (d : Option (List String)) (r : Option String)
    (cu : Option Nat) (m : Option String) (hc : f.client = some c) :
    (c.session = none →
      update_session f t = (f, none) ∧ end_session f = (f, none) ∧
      update_step f a b g = (f, none) ∧ end_step f a b g = (f, none) ∧
      update_event f d r cu m = (f, none) ∧ end_event f d r cu m = (f, none)) ∧
    (∀ s, c.session = some s → s.activeStep = none →
      (update_step f a b g).2 =
        some (.invalidOperation "No active step to update") ∧
      (end_step f a b g).2 = some (.invalidOperation "No active step to end") ∧
      (update_event f d r cu m).2 =
        some (.invalidOperation "No active step to update event in") ∧
      (end_event f d r cu m).2 =
        some (.invalidOperation "No active step to end event in")) ∧
    (∀ s steps st, c.session = some s → s.step_history = steps ++ [st] →
      st.is_finished = false → st.event_history = [] →
      (update_event f d r cu m).2 =
        some (.invalidOperation "No events exist in the current step") ∧
      (end_event f d r cu m).2 =
        some (.invalidOperation "No events exist in the current step")) := by
  refine ⟨?_, ?_, ?_⟩
  · intro hs
    simp [update_session, end_session, update_step, end_step, update_event,
      end_event, hc, hs]
  · intro s hs hstep
    simp [update_step, end_step, update_event, end_event, hc, hs, hstep]
  · intro s steps st hs hh hf hev
    simp [update_event, end_event, hc, hs, activeStep_eq s steps st hh hf, hev,
      listGet]

theorem C3_witness :
    update_session ⟨some ⟨none⟩⟩ none = (⟨some ⟨none⟩⟩, none) ∧
    (update_step ⟨some ⟨some (mkSession none)⟩⟩ none none none).2 =
      some (LErr.invalidOperation "No active step to update") :=
  ⟨((C3_inactive_target_policy ⟨some ⟨none⟩⟩ ⟨none⟩ none none none none
      none none none none rfl).1 rfl).1,
   ((C3_inactive_target_policy ⟨some ⟨some (mkSession none)⟩⟩ ⟨some (mkSession none)⟩
      none none none none none none none none rfl).2.1 _ rfl rfl).1⟩

/-- Claim C4: for update_previous_step and update_previous_event, a
nonnegative index raises InvalidOperationError regardless of the history
length, an index whose magnitude exceeds the history length raises
InvalidOperationError, and index -1 resolves to the most recently appended
item of the history, which receives the update. -/
theorem C4_previous_index_contract (f : Facade) (c : ClientState) (s : Session)
    (a b g : Option String) (d : Option (List String)) (r : Option String)
    (cu : Option Nat) (m : Option String) (i : Int)
    (hc : f.client = some c) (hs : c.session = some s) :
    (0 ≤ i → (update_previous_step f i a b g).2.map LErr.isInvalidOp = some true) ∧
    (0 ≤ i →
      (update_previous_event f i d r cu m).2.map LErr.isInvalidOp = some true) ∧
    (i < -(s.step_history.length : Int) →
      (update_previous_step f i a b g).2.map LErr.isInvalidOp = some true) ∧
    (∀ steps st, s.step_history = steps ++ [st] → st.is_finished = false →
      i < -(st.event_history.length : Int) →
      (update_previous_event f i d r cu m).2.map LErr.isInvalidOp = some true) ∧
    (∀ steps st, s.step_history = steps ++ [st] →
      update_previous_step f (-1) a b g =
        (f.withSession (some { s with step_history :=
          steps ++ [st.update_step a b g none] }), none)) ∧
    (∀ steps st evs e, s.step_history = steps ++ [st] → st.is_finished = false →
      st.event_history = evs ++ [e] →
      update_previous_event f (-1) d r cu m =
        (f.withSession (some { s with step_history :=
          steps ++ [{ st with event_history :=
            evs ++ [e.update_event none none cu m r d] }] }), none)) := by
  refine ⟨?_, ?_, ?_, ?_, ?_, ?_⟩
  · intro hi
    simp only [update_previous_step, hc, hs]
    rw [if_pos (by omega)]
    simp [LErr.isInvalidOp]
  · intro hi
    have hge : i ≥ 0 := hi
    simp only [update_previous_event, hc, hs]
    cases hstep : s.activeStep with
    | none => simp [LErr.isInvalidOp]
    | some st =>
      by_cases hlen : st.event_history.length = 0
      · simp [hlen, LErr.isInvalidOp]
      · simp [hlen, hge, LErr.isInvalidOp]
  · intro hi
    simp only [update_previous_step, hc, hs]
    rw [if_neg (by omega), if_pos hi]
    simp [LErr.isInvalidOp]
  · intro steps st hh hf hi
    simp only [update_previous_event, hc, hs, activeStep_eq s steps st hh hf]
    by_cases hlen : st.event_history.length = 0
    · simp [hlen, LErr.isInvalidOp]
    · rw [if_neg hlen, if_neg (by omega), if_pos hi]
      simp [LErr.isInvalidOp]
  · intro steps st hh
    simp only [update_previous_step, hc, hs, hh]
    rw [if_neg (by norm_num), if_neg (by simp)]
    have hpos : (((steps ++ [st]).length : Int) + -1).toNat = steps.length := by
      simp
    rw [hpos, listGet_concat]
    simp [listSet_concat]
  · intro steps st evs e hh hf hev
    simp only [update_previous_event, hc, hs, activeStep_eq s steps st hh hf, hev]
    rw [if_neg (by simp), if_neg (by norm_num), if_neg (by simp)]
    have hpos : (((evs ++ [e]).length : Int) + -1).toNat = evs.length := by
      simp
    rw [hpos, listGet_concat]
    simp [hh, listSet_concat]

theorem C4_witness :
    (update_previous_step ⟨some ⟨some ⟨false, none, [⟨none, none, none, false, []⟩]⟩⟩⟩
        3 (some "x") none none).2.map LErr.isInvalidOp = some true ∧
    update_previous_step ⟨some ⟨some ⟨false, none, [⟨none, none, none, false, []⟩]⟩⟩⟩
        (-1) (some "x") none none =
      (⟨some ⟨some ⟨false, none, [⟨some "x", none, none, false, []⟩]⟩⟩⟩, none) :=
  ⟨(C4_previous_index_contract _ _ _ (some "x") none none none none none none 3
      rfl rfl).1 (by omega),
   (C4_previous_index_contract _ _ _ (some "x") none none none none none none 3
      rfl rfl).2.2.2.2.1 [] ⟨none, none, none, false, []⟩ rfl⟩

theorem substLoop_append (l1 l2 : List (PyStr × PyStr)) (p : PyStr) :
    substLoop (l1 ++ l2) p = (substLoop l1 p).bind (fun q => substLoop l2 q) := by
  induction l1 generalizing p with
  | nil => simp [substLoop, Except.bind]
  | cons kv t ih =>
    obtain ⟨k, v⟩ := kv
    by_cases hfind : strFind (braceToken k) p = -1
    · simp [substLoop, hfind, Except.bind]
    · simp [substLoop, hfind, ih]

/-- Claim C5: in prompt resolution, each supplied key whose literal token
occurs in the current text is replaced by its value everywhere it occurs;
for every template and variables mapping, a supplied key whose token is
absent when its turn comes makes the loop, and get_prompt itself, raise
PromptError; for every successful substitution get_prompt returns the
resolved text and the unresolved-token check can only warn, never raise;
and the spec examples evaluate as stated, including the leftover-token
template that returns with the warning flag set and nothing raised. -/
theorem C5_prompt_substitution :
    (∀ key val rest p, strFind (braceToken key) p ≠ -1 →
      substLoop ((key, val) :: rest) p =
        substLoop rest (replaceAll (braceToken key) val p)) ∧
    (∀ key val rest p, strFind (braceToken key) p = -1 →
      substLoop ((key, val) :: rest) p =
        .error (.promptErr "Supplied variable not found in prompt")) ∧
    (∀ f c s fetched pre post key val q, f.client = some c → c.session = some s →
      substLoop pre fetched = .ok q → strFind (braceToken key) q = -1 →
      get_prompt f fetched (pre ++ (key, val) :: post) =
        ⟨none, some (.promptErr "Supplied variable not found in prompt"),
         true, false⟩) ∧
    (∀ f c s fetched vars out, f.client = some c → c.session = some s →
      substLoop vars fetched = .ok out →
      get_prompt f fetched vars = ⟨some out, none, true, unresolvedWarn out⟩) ∧
    (get_prompt ⟨some ⟨some (mkSession none)⟩⟩ "Hello \x7b\x7bname\x7d\x7d".data
        [("name".data, "Ann".data)] =
      ⟨some "Hello Ann".data, none, true, false⟩) ∧
    (get_prompt ⟨some ⟨some (mkSession none)⟩⟩ "Hello \x7b\x7bname\x7d\x7d".data
        [("city".data, "X".data)] =
      ⟨none, some (.promptErr "Supplied variable not found in prompt"),
       true, false⟩) ∧
    (get_prompt ⟨some ⟨some (mkSession none)⟩⟩
        "Hello \x7b\x7bname\x7d\x7d \x7b\x7bcity\x7d\x7d".data
        [("name".data, "Ann".data)] =
      ⟨some "Hello Ann \x7b\x7bcity\x7d\x7d".data, none, true, true⟩) := by
  refine ⟨?_, ?_, ?_, ?_, by decide, by decide, by decide⟩
  · intro key val rest p hfind
    simp [substLoop, hfind]
  · intro key val rest p hfind
    simp [substLoop, hfind]
  · intro f c s fetched pre post key val q hc hs hpre hfind
    have hsub : substLoop (pre ++ (key, val) :: post) fetched =
        .error (.promptErr "Supplied variable not found in prompt") := by
      rw [substLoop_append, hpre]
      simp [substLoop, hfind, Except.bind]
    simp [get_prompt, hc, hs, hsub]
  · intro f c s fetched vars out hc hs hok
    simp [get_prompt, hc, hs, hok]

theorem C5_witness :
    substLoop [("a".data, "1".data), ("b".data, "2".data)]
        "\x7b\x7ba\x7d\x7d and \x7b\x7bb\x7d\x7d".data =
      substLoop [("b".data, "2".data)]
        (replaceAll (braceToken "a".data) "1".data
          "\x7b\x7ba\x7d\x7d and \x7b\x7bb\x7d\x7d".data) ∧
    substLoop [("city".data, "X".data)] "Hello".data =
      .error (.promptErr "Supplied variable not found in prompt") ∧
    get_prompt ⟨some ⟨some (mkSession none)⟩⟩ "\x7b\x7ba\x7d\x7d ok".data
        ([("a".data, "1".data)] ++ ("city".data, "X".data) :: []) =
      ⟨none, some (.promptErr "Supplied variable not found in prompt"),
       true, false⟩ ∧
    get_prompt ⟨some ⟨some (mkSession none)⟩⟩ "Hi".data [] =
      ⟨some "Hi".data, none, true, unresolvedWarn "Hi".data⟩ :=
  ⟨C5_prompt_substitution.1 "a".data "1".data [("b".data, "2".data)]
      "\x7b\x7ba\x7d\x7d and \x7b\x7bb\x7d\x7d".data (by decide),
   C5_prompt_substitution.2.1 "city".data "X".data [] "Hello".data (by decide),
   C5_prompt_substitution.2.2.1 _ _ (mkSession none) "\x7b\x7ba\x7d\x7d ok".data
      [("a".data, "1".data)] [] "city".data "X".data "1 ok".data
      rfl rfl (by decide) (by decide),
   C5_prompt_substitution.2.2.2.1 _ _ (mkSession none) "Hi".data [] "Hi".data
      rfl rfl (by decide)⟩

/-- Claim C8, counterexample: in a process whose Client singleton was never
initialized, there is no active Session, yet on_llm_start raises
LucidicNotInitializedError to the host framework, because the Client()
lookup itself raises outside any try block. -/
theorem C8_counterexample :
    (onLlmStart ⟨[], []⟩ ⟨none⟩ "R1" "m" [] []).raised =
      some LErr.notInitialized := by
  rfl

/-- Claim C8 as amended: when the client is initialized but no Session or
no Step is active, on_llm_start and on_chat_model_start create no Event,
record only the model for the run, log, and return without raising; when
the client was never initialized, the Client() lookup raises
LucidicNotInitializedError to the host. -/
theorem C8_start_no_session_policy (h : Handler) (f : Facade) (c : ClientState)
    (run model : String) (text imgs : List String) (hc : f.client = some c) :
    (c.session = none →
      onLlmStart h f run model text imgs =
        ⟨{ h with run_to_model := dictSet h.run_to_model run model }, f, none⟩ ∧
      onChatModelStart h f run model text imgs =
        ⟨{ h with run_to_model := dictSet h.run_to_model run model }, f, none⟩) ∧
    (∀ s, c.session = some s → s.activeStep = none →
      onLlmStart h f run model text imgs =
        ⟨{ h with run_to_model := dictSet h.run_to_model run model }, f, none⟩ ∧
      onChatModelStart h f run model text imgs =
        ⟨{ h with run_to_model := dictSet h.run_to_model run model }, f, none⟩) := by
  constructor
  · intro hs
    simp [onLlmStart, onChatModelStart, hc, hs]
  · intro s hs hstep
    simp [onLlmStart, onChatModelStart, hc, hs, Session.createEventInActive, hstep]

theorem C8_witness :
    onLlmStart ⟨[], []⟩ ⟨some ⟨none⟩⟩ "R1" "m" [] [] =
      ⟨⟨[("R1", "m")], []⟩, ⟨some ⟨none⟩⟩, none⟩ :=
  ((C8_start_no_session_policy ⟨[], []⟩ _ _ "R1" "m" [] [] rfl).1 rfl).1

/-- Claim C9, counterexample: a host whose callbacks collection already
holds two LucidicLangchainHandler instances still holds two after calling
attach_to_llms twice, so not every host ends with at most one handler per
reachable collection. -/
theorem C9_counterexample :
    (attach_to_llms (attach_to_llms
        ⟨some (some [CB.lucidic 0, CB.lucidic 1]), []⟩)).selfCallbacks =
      some (some [CB.lucidic 0, CB.lucidic 1]) ∧
    countLucidic [CB.lucidic 0, CB.lucidic 1] = 2 := by
  decide

theorem attachList_idem (o : Option (List CB)) :
    attachList (attachList o) = attachList o := by
  unfold attachList
  by_cases hl : (o.getD []).any CB.isLucidic
  · simp [hl]
  · simp [hl, List.any_append, CB.isLucidic]

/-- Claim C9 as amended: attach_to_llms is idempotent, a second call with
the same handler changes nothing; a reachable collection with no
LucidicLangchainHandler gains exactly one, ending with exactly one handler,
and a collection that already contains a handler is left unchanged, so the
handler count never drops to one on hosts that started with more. -/
theorem C9_attach_idempotent (host : Host) (o : Option (List CB)) :
    attach_to_llms (attach_to_llms host) = attach_to_llms host ∧
    ((o.getD []).any CB.isLucidic = false →
      attachList o = some ((o.getD []) ++ [CB.lucidic 0]) ∧
      countLucidic ((o.getD []) ++ [CB.lucidic 0]) = 1) ∧
    ((o.getD []).any CB.isLucidic = true → attachList o = o) := by
  refine ⟨?_, ?_, ?_⟩
  · obtain ⟨sc, ats⟩ := host
    simp only [attach_to_llms, Host.mk.injEq]
    constructor
    · cases sc with
      | none => rfl
      | some ol => simp [attachList_idem]
    · induction ats with
      | nil => rfl
      | cons p tl ih =>
        simp only [List.map_cons, List.cons.injEq]
        refine ⟨?_, ih⟩
        by_cases hp : p.1.startsWith "_"
        · simp [hp]
        · cases hq : p.2 with
          | none => simp [hp, hq]
          | some ol => simp [hp, hq, attachList_idem]
  · intro hno
    refine ⟨by simp [attachList, hno], ?_⟩
    have hnil : (o.getD []).filter CB.isLucidic = [] := by
      simp only [List.any_eq_false] at hno
      exact List.filter_eq_nil_iff.mpr hno
    simp [countLucidic, List.filter_append, hnil, CB.isLucidic]
  · intro hyes
    simp [attachList, hyes]

theorem C9_witness :
    attach_to_llms (attach_to_llms ⟨some none, []⟩) = attach_to_llms ⟨some none, []⟩ ∧
    attachList (some []) = some [CB.lucidic 0] ∧
    countLucidic [CB.lucidic 0] = 1 :=
  ⟨(C9_attach_idempotent ⟨some none, []⟩ (some [])).1,
   ((C9_attach_idempotent ⟨some none, []⟩ (some [])).2.1 (by decide)).1,
   ((C9_attach_idempotent ⟨some none, []⟩ (some [])).2.1 (by decide)).2⟩

/-- Claim C2: evaluation of the code at the failing input.  After a start
callback for run R1 with an active Session and Step, on_llm_error finishes
the correlated Event and removes the entry from both correlation maps, and
it sets no cost or result field; but the success flag is left unset (the
source calls update_event with only the finished flag and the model name),
not set to false as the specification requires and as every sibling error
handler in the adapter does. -/
theorem C2_llm_error_leaves_success_unset :
    (let r1 := onLlmStart ⟨[], []⟩
        ⟨some ⟨some ⟨false, none, [⟨none, none, none, false, []⟩]⟩⟩⟩
        "R1" "gpt-4o" ["hi"] []
     let r2 := onLlmError r1.handler r1.facade "R1"
     r2.raised = none ∧ r2.handler = ⟨[], []⟩ ∧
     r2.facade = ⟨some ⟨some ⟨false, none, [⟨none, none, none, false,
       [⟨["hi"], [], none, none, some "gpt-4o", true, none⟩]⟩]⟩⟩⟩) := by
  decide

/-- Scenario composition for the correlation claim: the start callback
followed by the end callback for the same run identifier. -/
def startThenEnd (calcCost : String → Option Nat → Option Nat) (h : Handler)
    (f : Facade) (run model : String) (text imgs : List String)
    (response : Option GenMessage) : CbOutcome :=
  let r1 := onLlmStart h f run model text imgs
  onLlmEnd calcCost r1.handler r1.facade run response

/-- Claim C1: with an active Session and Step, a start callback for a fresh
run followed by the end callback for that run raises nothing, appends
exactly one Event to the active Step and terminates exactly that Event with
the finished flag and the success flag set to true, and removes the run
from both correlation maps, whose remaining entries are untouched.  The
final clause settles the rest of the claim: for any initialized client, an
end callback for a run absent from both maps, which covers both a second
end for the same run after the first one removed it and an end for a run
that was never started, changes neither the handler nor the facade and
raises nothing; it is only logged. -/
theorem C1_correlation_lifecycle
    (calcCost : String → Option Nat → Option Nat)
    (rm : List (String × String)) (re : List (String × EventRef))
    (sfin : Bool) (stask sst sac sgo : Option String)
    (steps : List Step) (evs : List Event)
    (run model : String) (text imgs : List String) (msg : GenMessage)
    (resp2 : Option GenMessage)
    (hm : dictGet rm run = none) (hev : dictGet re run = none) :
    (onLlmStart ⟨rm, re⟩
        ⟨some ⟨some ⟨sfin, stask, steps ++ [⟨sst, sac, sgo, false, evs⟩]⟩⟩⟩
        run model text imgs).raised = none ∧
    startThenEnd calcCost ⟨rm, re⟩
        ⟨some ⟨some ⟨sfin, stask, steps ++ [⟨sst, sac, sgo, false, evs⟩]⟩⟩⟩
        run model text imgs (some msg) =
      ⟨⟨rm, re⟩,
       ⟨some ⟨some ⟨sfin, stask, steps ++ [⟨sst, sac, sgo, false, evs ++
         [⟨text, imgs, some msg.pretty, calcCost model msg.usage_metadata,
           some model, true, some true⟩]⟩]⟩⟩⟩, none⟩ ∧
    (∀ f0 c0, f0.client = some c0 →
      onLlmEnd calcCost ⟨rm, re⟩ f0 run resp2 = ⟨⟨rm, re⟩, f0, none⟩) := by
  have hst : Session.activeStep ⟨sfin, stask,
      steps ++ [(⟨sst, sac, sgo, false, evs⟩ : Step)]⟩ =
      some ⟨sst, sac, sgo, false, evs⟩ :=
    activeStep_eq _ steps _ rfl rfl
  have hr1 : onLlmStart ⟨rm, re⟩
      ⟨some ⟨some ⟨sfin, stask, steps ++ [⟨sst, sac, sgo, false, evs⟩]⟩⟩⟩
      run model text imgs =
      ⟨⟨dictSet rm run model, dictSet re run (steps.length, evs.length)⟩,
       ⟨some ⟨some ⟨sfin, stask,
         steps ++ [⟨sst, sac, sgo, false,
           evs ++ [⟨text, imgs, none, none, none, false, none⟩]⟩]⟩⟩⟩,
       none⟩ := by
    simp [onLlmStart, Session.createEventInActive, hst, Facade.withSession,
      listSet_concat, mkEvent]
  have hst1 : Session.activeStep ⟨sfin, stask,
      steps ++ [(⟨sst, sac, sgo, false,
        evs ++ [⟨text, imgs, none, none, none, false, none⟩]⟩ : Step)]⟩ =
      some ⟨sst, sac, sgo, false,
        evs ++ [⟨text, imgs, none, none, none, false, none⟩]⟩ :=
    activeStep_eq _ steps _ rfl rfl
  refine ⟨by rw [hr1], ?_, ?_⟩
  · simp only [startThenEnd, hr1]
    simp [onLlmEnd, hst1, dictGet_set_self, Session.getEventAt,
      Session.setEventAt, listGet_concat, listSet_concat, mkEvent,
      Event.update_event, orElseOpt_some, orElseOpt_none_right, dictHas,
      dictDel_set_self rm run model hm,
      dictDel_set_self re run (steps.length, evs.length) hev,
      Facade.withSession]
  · intro f0 c0 hc0
    obtain ⟨oc⟩ := f0
    have hoc : oc = some c0 := hc0
    subst hoc
    obtain ⟨osess⟩ := c0
    cases osess with
    | none => simp [onLlmEnd, hm]
    | some s =>
      cases hact : s.activeStep with
      | none => simp [onLlmEnd, hm, hact]
      | some st =>
        simp [onLlmEnd, hm, hev, hact, dictHas, Facade.withSession]

theorem C1_witness :
    startThenEnd (fun _ u => u) ⟨[], []⟩
        ⟨some ⟨some ⟨false, none, [⟨none, none, none, false, []⟩]⟩⟩⟩
        "R1" "m" ["hi"] [] (some ⟨some 3, "out"⟩) =
      ⟨⟨[], []⟩,
       ⟨some ⟨some ⟨false, none, [⟨none, none, none, false,
         [⟨["hi"], [], some "out", some 3, some "m", true, some true⟩]⟩]⟩⟩⟩,
       none⟩ :=
  (C1_correlation_lifecycle (fun _ u => u) [] [] false none none none none [] []
    "R1" "m" ["hi"] [] ⟨some 3, "out"⟩ none rfl rfl).2.1

end Lucidic
